import Mathlib

/-!
Verification of the 2D-3D modelling repository: a shallow embedding of the
frontend dimension-extractor state machine (frontend/src/Home.tsx,
DimensionExtractor component), the Gemini recommendation validator
(frontend/src/utils/geminiApi.ts), the emitted SolidWorks VBA model programs
(unnamed/part_000, stacking/vba_script.vb, cv_scripts/Basic_Cube_VBA), and a
spec-modelled reconstruction of the backend extraction pipeline.
JavaScript numbers are modelled as rationals.
-/

namespace TwoDThreeD

/-! ### A small JSON universe (values produced by JSON.parse) -/

inductive Json where
  | str (s : String)
  | num (q : ℚ)
  | boolv (b : Bool)
  | nullv
  | arr (xs : List Json)
  | obj (fields : List (String × Json))

def lookupField : List (String × Json) → String → Option Json
  | [], _ => none
  | (k', v) :: rest, k => if k' = k then some v else lookupField rest k

/-- Field access `o.k` on a parsed JSON value: `none` models `undefined`. -/
def getField : Json → String → Option Json
  | .obj fs, k => lookupField fs k
  | _, _ => none

/-- JavaScript truthiness of a JSON value. -/
def truthy : Json → Bool
  | .str s => s ≠ ""
  | .num q => q ≠ 0
  | .boolv b => b
  | .nullv => false
  | .arr _ => true
  | .obj _ => true

/-- Truthiness of a possibly-absent field (`undefined` is falsy). -/
def truthyOpt : Option Json → Bool
  | none => false
  | some v => truthy v

def isStrOpt : Option Json → Bool
  | some (.str _) => true
  | _ => false

def isNumOpt : Option Json → Bool
  | some (.num _) => true
  | _ => false

/-! ### The `DimensionResult` interface (Home.tsx lines 152-169, App.tsx lines 19-36) -/

structure Dimensions where
  width : ℚ
  height : ℚ
  depth : ℚ

structure Position where
  x : ℚ
  y : ℚ
  z : ℚ

structure Operation where
  type : String
  dimensions : Dimensions
  position : Position

structure RootNode where
  type : String
  operations : List Operation

structure DimensionResult where
  root : RootNode

/-- JSON form of a `dimensions` record, field order as in the interface. -/
def Dimensions.toJson (d : Dimensions) : Json :=
  .obj [("width", .num d.width), ("height", .num d.height), ("depth", .num d.depth)]

def Position.toJson (p : Position) : Json :=
  .obj [("x", .num p.x), ("y", .num p.y), ("z", .num p.z)]

def Operation.toJson (o : Operation) : Json :=
  .obj [("type", .str o.type), ("dimensions", o.dimensions.toJson),
        ("position", o.position.toJson)]

def RootNode.toJson (r : RootNode) : Json :=
  .obj [("type", .str r.type), ("operations", .arr (r.operations.map Operation.toJson))]

def DimensionResult.toJson (d : DimensionResult) : Json :=
  .obj [("root", d.root.toJson)]

/-! Schema written from the spec's words for the output structure:
a tree object whose root carries a `type` field and an `operations` array,
each entry an object with a `type`, a `dimensions` record with exactly the
fields width/height/depth, and a `position` record with exactly x/y/z. -/

def nodupKeys : List String → Bool
  | [] => true
  | k :: rest => !(rest.contains k) && nodupKeys rest

def keysOf : Json → List String
  | .obj fs => fs.map Prod.fst
  | _ => []

def sameKeySet (ks expected : List String) : Bool :=
  nodupKeys ks && expected.all (fun k => ks.contains k) && ks.all (fun k => expected.contains k)

def specDimensionsShape (j : Json) : Bool :=
  sameKeySet (keysOf j) ["width", "height", "depth"] &&
  isNumOpt (getField j "width") && isNumOpt (getField j "height") &&
  isNumOpt (getField j "depth")

def specPositionShape (j : Json) : Bool :=
  sameKeySet (keysOf j) ["x", "y", "z"] &&
  isNumOpt (getField j "x") && isNumOpt (getField j "y") && isNumOpt (getField j "z")

def specOperationShape (j : Json) : Bool :=
  sameKeySet (keysOf j) ["type", "dimensions", "position"] &&
  isStrOpt (getField j "type") &&
  (match getField j "dimensions" with
   | some dj => specDimensionsShape dj
   | none => false) &&
  (match getField j "position" with
   | some pj => specPositionShape pj
   | none => false)

def specOutputShape (j : Json) : Bool :=
  match getField j "root" with
  | some rj =>
      isStrOpt (getField rj "type") &&
      (match getField rj "operations" with
       | some (.arr ops) => ops.all specOperationShape
       | _ => false)
  | none => false

/-! ### DimensionExtractor state (Home.tsx, `DimensionExtractor` component) -/

structure FileState where
  top_view : Option String
  front_view : Option String
  side_view : Option String

structure ExtractorState where
  files : FileState
  isLoading : Bool
  result : Option DimensionResult
  error : Option String
  vbaScript : Option String
  vbaError : Option String
  isGeneratingVba : Bool

/-- An axios error as observed by the catch blocks: `response?.data?.error`
and `message`; `none` models an absent or falsy (empty) field. -/
structure AxiosErrorModel where
  responseDataError : Option String
  message : Option String

/-- `error.response?.data?.error || error.message || 'An error occurred while processing the images'` -/
def submitErrorMessage (e : AxiosErrorModel) : String :=
  ((e.responseDataError).orElse (fun _ => e.message)).getD
    "An error occurred while processing the images"

/-- The synchronous head of `handleSubmit` (Home.tsx lines 207-211), run
before the extract-dimensions request is issued. -/
def submitResetState (s : ExtractorState) : ExtractorState :=
  { s with isLoading := true, error := none, result := none,
           vbaScript := none, vbaError := none }

/-- `handleSubmit` (Home.tsx lines 205-242): reset, issue the request, then
either store the result or store an error message; `finally` clears loading. -/
def handleSubmit (s : ExtractorState)
    (resp : Except AxiosErrorModel DimensionResult) : ExtractorState :=
  let s0 := submitResetState s
  match resp with
  | .ok r => { s0 with result := some r, isLoading := false }
  | .error e => { s0 with error := some (submitErrorMessage e), isLoading := false }

/-- `error.message || 'An error occurred while generating VBA script'` -/
def vbaErrorMessage (e : AxiosErrorModel) : String :=
  (e.message).getD "An error occurred while generating VBA script"

/-- `handleGenerateVba` (Home.tsx lines 244-273). The Bool records whether
the convert-clean request was actually issued; `if (!result) return;`
leaves the state untouched and issues nothing. -/
def handleGenerateVba (s : ExtractorState)
    (resp : Except AxiosErrorModel String) : ExtractorState × Bool :=
  if s.result.isNone then (s, false)
  else
    let s0 := { s with isGeneratingVba := true, vbaError := none, vbaScript := none }
    match resp with
    | .ok script => ({ s0 with vbaScript := some script, isGeneratingVba := false }, true)
    | .error e => ({ s0 with vbaError := some (vbaErrorMessage e), isGeneratingVba := false }, true)

structure DownloadFile where
  name : String
  content : String

/-- `handleDownloadVba` (Home.tsx lines 275-287): `if (!vbaScript) return;`
otherwise a file named solidworks_macro.vba holding the script is offered. -/
def handleDownloadVba (s : ExtractorState) : Option DownloadFile :=
  match s.vbaScript with
  | none => none
  | some script => some ⟨"solidworks_macro.vba", script⟩

/-- `Object.values(files).every(file => file !== null)` (Home.tsx line 289). -/
def allFilesSelected (f : FileState) : Bool :=
  f.top_view.isSome && f.front_view.isSome && f.side_view.isSome

/-- The submit button's `disabled={!allFilesSelected || isLoading}`
(Home.tsx lines 374-377). -/
def submitButtonDisabled (s : ExtractorState) : Bool :=
  !allFilesSelected s.files || s.isLoading

/-- The result section is rendered exactly when `result` is non-null
(Home.tsx line 396: `result && (...)`). -/
def displaysResultSection (s : ExtractorState) : Bool :=
  s.result.isSome

/-! ### Gemini response validation (geminiApi.ts lines 184-217 and 350-383)

Both `getAnalysisRecommendation` and `getAnalysisRecommendationWithImage`
run this identical validation over the JSON parsed from the model's text and
return the parsed value itself on success.  Field checks mirror the
JavaScript truthiness and `typeof` tests of the source. -/

def analysisTypes : List String := ["structural", "thermal", "magnetostatic", "modal"]

/-- One iteration of the `forEach` validation loop over a recommendation. -/
def checkRec (r : Json) : Except String Unit :=
  match getField r "analysis_type" with
  | some (.str s) =>
      if s ∈ analysisTypes then
        match getField r "confidence" with
        | some (.num q) =>
            if q < 0 ∨ q > 1 then .error "Invalid confidence"
            else if truthyOpt (getField r "reasoning") then .ok ()
            else .error "Missing reasoning"
        | _ => .error "Invalid confidence"
      else .error "Invalid analysis_type"
  | _ => .error "Invalid analysis_type"

def checkRecs : List Json → Except String Unit
  | [] => .ok ()
  | r :: rs =>
      match checkRec r with
      | .ok _ => checkRecs rs
      | .error e => .error e

/-- The validation performed on `parsedResponse` before it is returned:
response_type must be the literal string, `data.recommendations` must be an
array of length 3, and every entry must pass `checkRec`. -/
def validateGeminiResponse (j : Json) : Except String Json :=
  match getField j "response_type" with
  | some (.str rt) =>
      if rt ≠ "analysis_recommendation" then .error "Response missing required response_type field"
      else
      match getField j "data" with
      | some d =>
          if truthy d = false then .error "Response missing required recommendations array"
          else
            match getField d "recommendations" with
            | some (.arr rs) =>
                if rs.length ≠ 3 then .error "Response must contain exactly 3 recommendations"
                else
                  match checkRecs rs with
                  | .ok _ => .ok j
                  | .error e => .error e
            | _ => .error "Response missing required recommendations array"
      | none => .error "Response missing required recommendations array"
  | _ => .error "Response missing required response_type field"

/-- The `data.recommendations` array of a response (empty when absent). -/
def recsOf (j : Json) : List Json :=
  match getField j "data" with
  | some d =>
      match getField d "recommendations" with
      | some (.arr rs) => rs
      | _ => []
  | none => []

/-! ### Emitted SolidWorks VBA model programs

Geometry-bearing SolidWorks API calls of the three VBA scripts in the
repository.  View/UI calls (ViewZoomtofit2, ClearSelection2, MsgBox) carry
no modelling content and are not part of the call lists. -/

inductive SwCall where
  | selectByID2 (name selType : String)
  | insertSketch
  | createLine (x1 y1 x2 y2 : ℚ)
  | createCenterRectangle (cx cy hw hh : ℚ)
  | insertSketch2
  | featureExtrusion2 (depth : ℚ)
deriving DecidableEq

/-- unnamed/part_000, `CreateModelFromJSON`: one sketch on the Front Plane
holding two rectangles drawn as line loops, then one extrusion of depth 100. -/
def part000Calls : List SwCall :=
  [ .selectByID2 "Front Plane" "PLANE",
    .insertSketch,
    .createLine 0 0 40 0, .createLine 40 0 40 60,
    .createLine 40 60 0 60, .createLine 0 60 0 0,
    .createLine 5 15 35 15, .createLine 35 15 35 45,
    .createLine 35 45 5 45, .createLine 5 45 5 15,
    .insertSketch2,
    .featureExtrusion2 100 ]

/-- stacking/vba_script.vb, `CreateModelFromJSON`: a centered 0.1-square
extruded 0.1, then a second sketch again on the Front Plane with a
0.1-square line loop, extruded 0.1. -/
def stackingCalls : List SwCall :=
  [ .selectByID2 "Front Plane" "PLANE",
    .insertSketch,
    .createCenterRectangle 0 0 (5/100) (5/100),
    .insertSketch2,
    .featureExtrusion2 (1/10),
    .selectByID2 "Front Plane" "PLANE",
    .insertSketch,
    .createLine 0 0 (1/10) 0, .createLine (1/10) 0 (1/10) (1/10),
    .createLine (1/10) (1/10) 0 (1/10), .createLine 0 (1/10) 0 0,
    .insertSketch2,
    .featureExtrusion2 (1/10) ]

/-- cv_scripts/Basic_Cube_VBA, `CreateSimpleCube` with cubeSize = 0.1:
sketch on the default plane (no SelectByID2), centered square, extrude. -/
def cubeCalls : List SwCall :=
  [ .insertSketch,
    .createCenterRectangle 0 0 (1/10/2) (1/10/2),
    .insertSketch2,
    .featureExtrusion2 (1/10) ]

/-! Macro-level abstraction of a call list, in the spec's MacroOperation
vocabulary: plane selection + InsertSketch = begin_sketch, a closed
axis-aligned 4-line loop or a CreateCenterRectangle = create_rectangle,
InsertSketch2 = end_sketch, FeatureExtrusion2 = extrude. -/

structure PlaneSel where
  name : String
  selType : String
deriving DecidableEq

inductive MacroOp where
  | beginSketch (plane : Option PlaneSel)
  | createRectangle (x y w h : ℚ)
  | endSketch
  | extrude (depth : ℚ)
  | cut (depth : ℚ)
deriving DecidableEq

structure SkLine where
  x1 : ℚ
  y1 : ℚ
  x2 : ℚ
  y2 : ℚ
deriving DecidableEq

/-- Recognise four chained lines as a counter-clockwise axis-aligned
rectangle starting at its bottom-left corner, yielding (x, y, w, h). -/
def fourLinesRect (a b c d : SkLine) : Option (ℚ × ℚ × ℚ × ℚ) :=
  if a.y1 = a.y2 ∧ b.x1 = b.x2 ∧ c.y1 = c.y2 ∧ d.x1 = d.x2 ∧
     b.x1 = a.x2 ∧ b.y1 = a.y2 ∧ c.x1 = b.x2 ∧ c.y1 = b.y2 ∧
     d.x1 = c.x2 ∧ d.y1 = c.y2 ∧ a.x1 = d.x2 ∧ a.y1 = d.y2 ∧
     a.x1 < a.x2 ∧ b.y1 < b.y2 then
    some (a.x1, a.y1, a.x2 - a.x1, b.y2 - b.y1)
  else none

/-- Walk the call list carrying the pending plane selection and the buffer
of sketch lines not yet grouped into a rectangle. -/
def callsToOps : List SwCall → Option PlaneSel → List SkLine → List MacroOp
  | [], _, _ => []
  | .selectByID2 n t :: rest, _, buf => callsToOps rest (some ⟨n, t⟩) buf
  | .insertSketch :: rest, sel, buf => .beginSketch sel :: callsToOps rest none buf
  | .createLine x1 y1 x2 y2 :: rest, sel, buf =>
      match buf ++ [⟨x1, y1, x2, y2⟩] with
      | [a, b, c, d] =>
          match fourLinesRect a b c d with
          | some (x, y, w, h) => .createRectangle x y w h :: callsToOps rest sel []
          | none => callsToOps rest sel []
      | buf' => callsToOps rest sel buf'
  | .createCenterRectangle cx cy hw hh :: rest, sel, buf =>
      .createRectangle (cx - hw) (cy - hh) (2 * hw) (2 * hh) :: callsToOps rest sel buf
  | .insertSketch2 :: rest, sel, buf => .endSketch :: callsToOps rest sel buf
  | .featureExtrusion2 d :: rest, sel, buf => .extrude d :: callsToOps rest sel buf

def programOf (cs : List SwCall) : List MacroOp :=
  callsToOps cs none []

def part000Prog : List MacroOp := programOf part000Calls

def stackingProg : List MacroOp := programOf stackingCalls

def cubeProg : List MacroOp := programOf cubeCalls

/-- The program draws (in some sketch) a rectangle with corner (x,y) and
size w × h. -/
def drawsRect (cs : List SwCall) (x y w h : ℚ) : Bool :=
  (programOf cs).contains (.createRectangle x y w h)

/-- The program's root emission sequence is
begin_sketch → create_rectangle → end_sketch → extrude. -/
def rootSequenceOk : List MacroOp → Bool
  | .beginSketch _ :: .createRectangle _ _ _ _ :: .endSketch :: .extrude _ :: _ => true
  | _ => false

/-- Sketching on a selected FACE (rather than a named reference PLANE) is
what references a parent's face in these programs. -/
def referencesParentFace : MacroOp → Bool
  | .beginSketch (some sel) => sel.selType = "FACE"
  | _ => false

/-- After the first rectangle of the root sketch: further rectangles may
follow, then the sketch must close with end_sketch → extrude. -/
def restAfterRects : List MacroOp → Bool
  | .createRectangle _ _ _ _ :: rest => restAfterRects rest
  | .endSketch :: .extrude _ :: _ => true
  | _ => false

/-- The program's root emission is begin_sketch → create_rectangle (one or
more, a nested rectangle may be inlined into the root sketch) →
end_sketch → extrude. -/
def rootSequenceRelaxedOk : List MacroOp → Bool
  | .beginSketch _ :: .createRectangle _ _ _ _ :: rest => restAfterRects rest
  | _ => false

def isExtrudeOrCut : MacroOp → Bool
  | .extrude _ => true
  | .cut _ => true
  | _ => false

def isCutOp : MacroOp → Bool
  | .cut _ => true
  | _ => false

/-- Every operation referencing a parent's face sits strictly after some
extrude/cut operation. -/
def orderingOk (p : List MacroOp) : Bool :=
  (List.range p.length).all fun i =>
    !referencesParentFace (p.getD i .endSketch) ||
      (List.range i).any fun j => isExtrudeOrCut (p.getD j .endSketch)

/-! ### The extraction pipeline

Modelled from the spec: the backend dimension-extraction service (the
Cross-View Correlator, Containment Graph Builder, Feature Tree Assembler and
Macro Code Generator behind the extract-dimensions endpoint) is not under
src/; only its frontend caller and emitted scripts are.  The definitions
below follow §4 of the spec: greedy shared-axis best-overlap matching,
smallest-enclosing-ancestor containment over the front-view boxes,
deterministic child ordering by descending area with leftmost-then-topmost
tie-breaks, and a pre-order macro walk.  The open boss/cut convention of §9
is fixed here as: every nested node is a cut. -/

inductive ViewTag where
  | top
  | front
  | side
deriving DecidableEq

inductive ShapeKind where
  | rectangle
  | square
deriving DecidableEq

structure BBox where
  x : ℚ
  y : ℚ
  w : ℚ
  h : ℚ
deriving DecidableEq

structure DetectedShape where
  id : Nat
  view : ViewTag
  kind : ShapeKind
  bbox : BBox
  imageScale : ℚ
deriving DecidableEq

def xOverlap (a b : BBox) : ℚ :=
  min (a.x + a.w) (b.x + b.w) - max a.x b.x

def yOverlap (a b : BBox) : ℚ :=
  min (a.y + a.h) (b.y + b.h) - max a.y b.y

/-- Intersection-over-union on the shared x-axis. -/
def xIoU (a b : BBox) : ℚ :=
  xOverlap a b / (max (a.x + a.w) (b.x + b.w) - min a.x b.x)

def yIoU (a b : BBox) : ℚ :=
  yOverlap a b / (max (a.y + a.h) (b.y + b.h) - min a.y b.y)

/-- Greedy best-score pick; earlier candidates win ties. -/
def bestBy (score : DetectedShape → ℚ) : List DetectedShape → Option DetectedShape
  | [] => none
  | s :: rest =>
      match bestBy score rest with
      | none => some s
      | some b => if score s < score b then some b else some s

structure CorrelatedEntity where
  id : Nat
  width : ℚ
  height : ℚ
  depth : ℚ
  px : ℚ
  py : ℚ
  pz : ℚ
  depthInferred : Bool
  frontBBox : BBox
deriving DecidableEq

inductive PipelineError where
  | missingView (shapeId : Nat)
  | multipleBaseShapes (count : Nat)
deriving DecidableEq

/-- Correlate one front-view shape: best top match by x-axis IoU above the
tolerance, best side match by y-axis IoU; a full triple gives the depth from
the top view's second axis, a two-view match is accepted with inferred
depth min(width, height), no match at all is a missing-view failure. -/
def correlateOne (eps : ℚ) (f : DetectedShape)
    (tops sides : List DetectedShape) : Except PipelineError CorrelatedEntity :=
  let t? := bestBy (fun t => xIoU f.bbox t.bbox)
    (tops.filter fun t => eps ≤ xIoU f.bbox t.bbox)
  let s? := bestBy (fun s => yIoU f.bbox s.bbox)
    (sides.filter fun s => eps ≤ yIoU f.bbox s.bbox)
  match t?, s? with
  | some t, some _ =>
      .ok ⟨f.id, f.bbox.w, f.bbox.h, t.bbox.h, f.bbox.x, f.bbox.y, 0, false, f.bbox⟩
  | some _, none =>
      .ok ⟨f.id, f.bbox.w, f.bbox.h, min f.bbox.w f.bbox.h, f.bbox.x, f.bbox.y, 0, true, f.bbox⟩
  | none, some _ =>
      .ok ⟨f.id, f.bbox.w, f.bbox.h, min f.bbox.w f.bbox.h, f.bbox.x, f.bbox.y, 0, true, f.bbox⟩
  | none, none => .error (.missingView f.id)

def correlateAll (eps : ℚ) (fronts tops sides : List DetectedShape) :
    Except PipelineError (List CorrelatedEntity) :=
  match fronts with
  | [] => .ok []
  | f :: rest => do
      let e ← correlateOne eps f tops sides
      let es ← correlateAll eps rest tops sides
      .ok (e :: es)

def bboxArea (b : BBox) : ℚ := b.w * b.h

/-- Strict containment of the inner box in the outer box (front view). -/
def strictlyInside (inner outer : BBox) : Bool :=
  decide (outer.x < inner.x) && decide (inner.x + inner.w < outer.x + outer.w) &&
  decide (outer.y < inner.y) && decide (inner.y + inner.h < outer.y + outer.h)

def minByArea : List CorrelatedEntity → Option CorrelatedEntity
  | [] => none
  | e :: rest =>
      match minByArea rest with
      | none => some e
      | some b => if bboxArea b.frontBBox < bboxArea e.frontBBox then some b else some e

/-- Closest enclosing ancestor: the smallest-area entity strictly
containing the child's front-view box. -/
def parentOf (es : List CorrelatedEntity) (c : CorrelatedEntity) : Option CorrelatedEntity :=
  minByArea (es.filter fun e => strictlyInside c.frontBBox e.frontBBox)

def rootsOf (es : List CorrelatedEntity) : List CorrelatedEntity :=
  es.filter fun e => (parentOf es e).isNone

def childrenOf (es : List CorrelatedEntity) (p : CorrelatedEntity) : List CorrelatedEntity :=
  es.filter fun e => parentOf es e = some p

/-- Deterministic child order: descending area, ties leftmost-then-topmost. -/
def childBefore (a b : CorrelatedEntity) : Bool :=
  decide (bboxArea b.frontBBox < bboxArea a.frontBBox) ||
  (decide (bboxArea a.frontBBox = bboxArea b.frontBBox) &&
    (decide (a.frontBBox.x < b.frontBBox.x) ||
     (decide (a.frontBBox.x = b.frontBBox.x) && decide (a.frontBBox.y ≤ b.frontBBox.y))))

inductive FeatKind where
  | base_extrude
  | boss
  | cut
deriving DecidableEq

inductive FeatureTree where
  | node (kind : FeatKind) (width height depth relx rely : ℚ)
      (children : List FeatureTree)

/-- Assemble the subtree rooted at `e`; positions are offsets from the
parent's origin, children in the deterministic order, fuel bounds depth. -/
def buildNode (fuel : Nat) (es : List CorrelatedEntity) (e : CorrelatedEntity)
    (originX originY : ℚ) (kind : FeatKind) : FeatureTree :=
  match fuel with
  | 0 => .node kind e.width e.height e.depth (e.px - originX) (e.py - originY) []
  | fuel + 1 =>
      .node kind e.width e.height e.depth (e.px - originX) (e.py - originY)
        (((childrenOf es e).insertionSort (fun a b => childBefore a b = true)).map
          fun c => buildNode fuel es c e.px e.py .cut)

inductive ModeCfg where
  | simple
  | complex
deriving DecidableEq

/-- Simple mode emits a base extrude of the first entity only; complex mode
requires exactly one containment root and builds the full tree. -/
def assembleTree (mode : ModeCfg) (es : List CorrelatedEntity) :
    Except PipelineError FeatureTree :=
  match mode with
  | .simple =>
      match es with
      | [] => .error (.multipleBaseShapes 0)
      | e :: _ => .ok (.node .base_extrude e.width e.height e.depth 0 0 [])
  | .complex =>
      match rootsOf es with
      | [r] => .ok (buildNode es.length es r 0 0 .base_extrude)
      | rs => .error (.multipleBaseShapes rs.length)

/-- Pre-order macro emission: the root sketches on the base plane and
extrudes; every nested node sketches on its parent's face and extrudes or
cuts by kind. -/
def genNode (isRoot : Bool) : FeatureTree → List MacroOp
  | .node kind w h d rx ry children =>
      (if isRoot then MacroOp.beginSketch (some ⟨"Front Plane", "PLANE"⟩)
       else MacroOp.beginSketch (some ⟨"Parent Face", "FACE"⟩)) ::
      MacroOp.createRectangle rx ry w h :: MacroOp.endSketch ::
      (match kind with
       | .cut => MacroOp.cut d
       | _ => MacroOp.extrude d) ::
      (children.attach.map fun ⟨c, _⟩ => genNode false c).flatten
termination_by t => sizeOf t
decreasing_by
  simp_wf
  rename_i hc
  have := List.sizeOf_lt_of_mem hc
  omega

/-- The whole spec-modelled pipeline: correlate, resolve containment,
assemble the tree, generate the macro program. -/
def pipeline (mode : ModeCfg) (eps : ℚ)
    (tops fronts sides : List DetectedShape) :
    Except PipelineError (FeatureTree × List MacroOp) := do
  let es ← correlateAll eps fronts tops sides
  let t ← assembleTree mode es
  .ok (t, genNode true t)

/-! ### Concrete inputs used by witnesses and counterexamples -/

def isRectOp : MacroOp → Bool
  | .createRectangle _ _ _ _ => true
  | _ => false

def emptyExtractorState : ExtractorState :=
  ⟨⟨none, none, none⟩, false, none, none, none, none, false⟩

def readyExtractorState : ExtractorState :=
  ⟨⟨some "top.png", some "front.png", some "side.png"⟩, false, none, none, none, none, false⟩

/-- Scenario A shapes: front 40×60, top 40×100, side 100×60. -/
def topShapeA : DetectedShape := ⟨1, .top, .rectangle, ⟨0, 0, 40, 100⟩, 1⟩

def frontShapeA : DetectedShape := ⟨0, .front, .rectangle, ⟨0, 0, 40, 60⟩, 1⟩

def sideShapeA : DetectedShape := ⟨2, .side, .rectangle, ⟨0, 0, 100, 60⟩, 1⟩

def structuralRec : Json :=
  .obj [("analysis_type", .str "structural"), ("confidence", .num 1),
        ("reasoning", .str "component is under static mechanical load")]

def modalRec : Json :=
  .obj [("analysis_type", .str "modal"), ("confidence", .num 1),
        ("reasoning", .str "vibration may matter")]

/-- A recommendation whose reasoning is the number 1: truthy, not a string. -/
def numericReasoningRec : Json :=
  .obj [("analysis_type", .str "thermal"), ("confidence", .num 1),
        ("reasoning", .num 1)]

def nonStringReasoningResponse : Json :=
  .obj [("response_type", .str "analysis_recommendation"),
        ("data", .obj [("recommendations",
          .arr [structuralRec, modalRec, numericReasoningRec])])]

def wellFormedResponse : Json :=
  .obj [("response_type", .str "analysis_recommendation"),
        ("data", .obj [("recommendations",
          .arr [structuralRec, modalRec, structuralRec])])]

/-! ## Theorems -/

/-! ### Shared evaluation lemmas for the emitted VBA programs -/

theorem part000Prog_eq : part000Prog =
    [.beginSketch (some ⟨"Front Plane", "PLANE"⟩),
     .createRectangle 0 0 40 60, .createRectangle 5 15 30 30,
     .endSketch, .extrude 100] := by
  norm_num [part000Prog, programOf, callsToOps, fourLinesRect, part000Calls]

theorem stackingProg_eq : stackingProg =
    [.beginSketch (some ⟨"Front Plane", "PLANE"⟩),
     .createRectangle (-(5/100)) (-(5/100)) (2 * (5/100)) (2 * (5/100)),
     .endSketch, .extrude (1/10),
     .beginSketch (some ⟨"Front Plane", "PLANE"⟩),
     .createRectangle 0 0 (1/10) (1/10), .endSketch, .extrude (1/10)] := by
  norm_num [stackingProg, programOf, callsToOps, fourLinesRect, stackingCalls]

theorem cubeProg_eq : cubeProg =
    [.beginSketch none,
     .createRectangle (-(1/10/2)) (-(1/10/2)) (2 * (1/10/2)) (2 * (1/10/2)),
     .endSketch, .extrude (1/10)] := by
  norm_num [cubeProg, programOf, callsToOps, fourLinesRect, cubeCalls]

/-- C1 counterexample: the emitted model program of unnamed/part_000 draws
no rectangle of dimensions 30×40 at offset (5,15); the inner rectangle it
draws there is 30×30 (its line loop runs from (5,15) to (35,45)). -/
theorem claim_C1_counterexample :
    drawsRect part000Calls 5 15 30 40 = false ∧
    drawsRect part000Calls 5 15 30 30 = true := by
  have h := part000Prog_eq
  simp only [part000Prog] at h
  constructor <;> simp [drawsRect, h]

/-- C1 (amended): for the reference input, the emitted model program draws
an outer rectangle of width 40 and height 60, extrudes to depth 100, and
draws exactly one more rectangle — the inner one, of dimensions 30×30,
positioned at offset (5,15) relative to the outer rectangle's origin. -/
theorem claim_C1_amended :
    drawsRect part000Calls 0 0 40 60 = true ∧
    drawsRect part000Calls 5 15 30 30 = true ∧
    part000Prog.contains (.extrude 100) = true ∧
    part000Prog.countP isRectOp = 2 := by
  have h := part000Prog_eq
  simp only [part000Prog] at h
  refine ⟨?_, ?_, ?_, ?_⟩
  · simp [drawsRect, h]
  · simp [drawsRect, h]
  · simp [part000Prog, h]
  · simp only [part000Prog, h]
    rfl

/-- C2 counterexample: the emitted program of unnamed/part_000 does not
follow the strict root sequence begin_sketch → create_rectangle →
end_sketch → extrude — its root sketch draws a second rectangle (the inner
one, at index 2) before end_sketch. -/
theorem claim_C2_counterexample :
    rootSequenceOk part000Prog = false ∧
    part000Prog.getD 2 .endSketch = .createRectangle 5 15 30 30 := by
  rw [part000Prog_eq]
  exact ⟨rfl, rfl⟩

/-- C2 (amended): the stacking and cube programs follow the strict root
emission sequence begin_sketch → create_rectangle → end_sketch → extrude;
part_000 follows it with one additional create_rectangle inlined into the
root sketch between the first rectangle and end_sketch; and in all three
emitted programs every operation referencing a parent's face sits strictly
after an extrude/cut (vacuously — no emitted operation references a
parent's face). -/
theorem claim_C2_amended :
    rootSequenceOk stackingProg = true ∧ rootSequenceOk cubeProg = true ∧
    rootSequenceRelaxedOk part000Prog = true ∧
    orderingOk stackingProg = true ∧ orderingOk cubeProg = true ∧
    orderingOk part000Prog = true := by
  rw [stackingProg_eq, cubeProg_eq, part000Prog_eq]
  exact ⟨rfl, rfl, rfl, rfl, rfl, rfl⟩

/-- C3: every value of the `DimensionResult` interface consumed by the
reporting UI serializes to a tree object whose root carries a string `type`
and an `operations` array in which every entry has a `type`, a `dimensions`
record with exactly the fields width/height/depth, and a `position` record
with exactly the fields x/y/z. -/
theorem claim_C3_output_structure (d : DimensionResult) :
    specOutputShape (DimensionResult.toJson d) = true := by
  have hop : ∀ o : Operation, specOperationShape (Operation.toJson o) = true := fun o => rfl
  have hall : (d.root.operations.map Operation.toJson).all specOperationShape = true := by
    refine List.all_eq_true.mpr ?_
    intro x hx
    obtain ⟨o, _, rfl⟩ := List.mem_map.mp hx
    exact hop o
  show (true && (d.root.operations.map Operation.toJson).all specOperationShape) = true
  rw [hall]
  rfl

/-- C4: after a failed extract-dimensions request, the result is null, an
error message describing the failure is set, and no result section (feature
tree) is displayed. -/
theorem claim_C4_failure_no_partial_result (s : ExtractorState) (e : AxiosErrorModel) :
    (handleSubmit s (.error e)).result = none ∧
    (handleSubmit s (.error e)).error = some (submitErrorMessage e) ∧
    displaysResultSection (handleSubmit s (.error e)) = false :=
  ⟨rfl, rfl, rfl⟩

/-- C5 counterexample: in the stacking script's emitted program the non-root
feature's begin_sketch (operation index 4) selects the same global
"Front Plane" reference plane as the root's begin_sketch — it does not
reference a parent face — and the program contains no cut operation. -/
theorem claim_C5_counterexample :
    stackingProg.getD 4 .endSketch = .beginSketch (some ⟨"Front Plane", "PLANE"⟩) ∧
    stackingProg.getD 0 .endSketch = .beginSketch (some ⟨"Front Plane", "PLANE"⟩) ∧
    referencesParentFace (stackingProg.getD 4 .endSketch) = false ∧
    stackingProg.all (fun op => !isCutOp op) = true := by
  rw [stackingProg_eq]
  refine ⟨rfl, rfl, ?_, rfl⟩
  simp [referencesParentFace]

/-- C5 (amended): the non-root feature of the stacking script's program
begins a sketch on the same global front base plane as the root, creates
its rectangle, ends the sketch, and emits an extrude; no cut is emitted and
the operation does not vary with a node kind. -/
theorem claim_C5_amended :
    List.drop 4 stackingProg =
      [.beginSketch (some ⟨"Front Plane", "PLANE"⟩),
       .createRectangle 0 0 (1/10) (1/10), .endSketch, .extrude (1/10)] ∧
    stackingProg.all (fun op => !isCutOp op) = true := by
  rw [stackingProg_eq]
  exact ⟨rfl, rfl⟩

/-- C6: the extract-dimensions submission is enabled exactly when the top,
front and side view files are all non-null and no invocation is in flight. -/
theorem claim_C6_submit_enabled_iff (s : ExtractorState) :
    submitButtonDisabled s = false ↔
      (s.files.top_view.isSome = true ∧ s.files.front_view.isSome = true ∧
       s.files.side_view.isSome = true ∧ s.isLoading = false) := by
  simp [submitButtonDisabled, allFilesSelected, Bool.or_eq_false_iff, and_assoc]

/-- C6 witness: the equivalence evaluated at a concrete state with all
three views selected and no request in flight. -/
theorem claim_C6_submit_enabled_iff_witness :
    submitButtonDisabled readyExtractorState = false ↔
      (readyExtractorState.files.top_view.isSome = true ∧
       readyExtractorState.files.front_view.isSome = true ∧
       readyExtractorState.files.side_view.isSome = true ∧
       readyExtractorState.isLoading = false) :=
  claim_C6_submit_enabled_iff readyExtractorState

/-- C7: with no completed extraction result, handleGenerateVba leaves the
state unchanged and issues no request; with no generated script,
handleDownloadVba produces no download. -/
theorem claim_C7_stage_guards (s : ExtractorState) (resp : Except AxiosErrorModel String)
    (h1 : s.result = none) (h2 : s.vbaScript = none) :
    handleGenerateVba s resp = (s, false) ∧ handleDownloadVba s = none := by
  constructor
  · simp [handleGenerateVba, h1]
  · simp [handleDownloadVba, h2]

/-- C7 witness: the guards evaluated at the fresh state. -/
theorem claim_C7_stage_guards_witness :
    handleGenerateVba emptyExtractorState (.ok "Sub CreateModelFromJSON") =
      (emptyExtractorState, false) ∧
    handleDownloadVba emptyExtractorState = none :=
  claim_C7_stage_guards emptyExtractorState (.ok "Sub CreateModelFromJSON") rfl rfl

/-- C8: at the start of every submission, before the request is issued, all
outputs of previous invocations (result, error, vbaScript, vbaError) are
reset to null. -/
theorem claim_C8_fresh_context (s : ExtractorState) :
    (submitResetState s).result = none ∧ (submitResetState s).error = none ∧
    (submitResetState s).vbaScript = none ∧ (submitResetState s).vbaError = none :=
  ⟨rfl, rfl, rfl, rfl⟩

/-- C9: the spec-modelled pipeline is deterministic — two runs on equal
DetectedShape inputs yield identical results. -/
theorem claim_C9_determinism (mode : ModeCfg) (eps : ℚ)
    (i1 i2 : List DetectedShape × List DetectedShape × List DetectedShape)
    (h : i1 = i2) :
    pipeline mode eps i1.1 i1.2.1 i1.2.2 = pipeline mode eps i2.1 i2.2.1 i2.2.2 := by
  rw [h]

/-- C9 witness: determinism at the Scenario A input. -/
theorem claim_C9_determinism_witness :
    pipeline .complex (1/2) [topShapeA] [frontShapeA] [sideShapeA] =
      pipeline .complex (1/2) [topShapeA] [frontShapeA] [sideShapeA] :=
  claim_C9_determinism .complex (1/2) ([topShapeA], [frontShapeA], [sideShapeA])
    ([topShapeA], [frontShapeA], [sideShapeA]) rfl

theorem checkRec_ok_props (r : Json) (h : checkRec r = .ok ()) :
    (∃ s, getField r "analysis_type" = some (.str s) ∧ s ∈ analysisTypes) ∧
    (∃ q, getField r "confidence" = some (.num q) ∧ 0 ≤ q ∧ q ≤ 1) ∧
    truthyOpt (getField r "reasoning") = true := by
  unfold checkRec at h
  split at h
  case _ s hs =>
    split at h
    case isTrue hmem =>
      split at h
      case _ q hq =>
        split at h
        case isTrue => exact absurd h (by simp)
        case isFalse hq01 =>
          split at h
          case isTrue htr =>
            push_neg at hq01
            exact ⟨⟨s, hs, hmem⟩, ⟨q, hq, hq01.1, hq01.2⟩, htr⟩
          case isFalse => exact absurd h (by simp)
      case _ hconf => exact absurd h (by simp)
    case isFalse => exact absurd h (by simp)
  case _ hat => exact absurd h (by simp)

theorem checkRecs_ok_each (rs : List Json) (h : checkRecs rs = .ok ()) :
    ∀ r ∈ rs, checkRec r = .ok () := by
  induction rs with
  | nil => intro r hr; cases hr
  | cons a as ih =>
      intro r hr
      unfold checkRecs at h
      split at h
      case _ u heq =>
        rcases List.mem_cons.mp hr with rfl | hr'
        · cases u; exact heq
        · exact ih h r hr'
      case _ e heq => exact absurd h (by simp)

/-- C10 (amended): every response the validator accepts is returned as-is
and satisfies: response_type is 'analysis_recommendation', exactly 3
recommendations, each with an analysis_type among
structural/thermal/magnetostatic/modal, a numeric confidence in [0,1], and
a truthy (present, non-empty) reasoning value — though not necessarily a
string, which is the one point where the original claim fails. -/
theorem claim_C10_amended (j v : Json) (h : validateGeminiResponse j = .ok v) :
    v = j ∧ getField j "response_type" = some (.str "analysis_recommendation") ∧
    (recsOf j).length = 3 ∧
    ∀ r ∈ recsOf j,
      (∃ s, getField r "analysis_type" = some (.str s) ∧ s ∈ analysisTypes) ∧
      (∃ q, getField r "confidence" = some (.num q) ∧ 0 ≤ q ∧ q ≤ 1) ∧
      truthyOpt (getField r "reasoning") = true := by
  unfold validateGeminiResponse at h
  split at h
  case _ rt hrt =>
    split at h
    case isTrue => exact absurd h (by simp)
    case isFalse hne =>
      have hrtval : rt = "analysis_recommendation" := not_ne_iff.mp hne
      subst hrtval
      split at h
      case _ d hd =>
        split at h
        case isTrue => exact absurd h (by simp)
        case isFalse htd =>
          split at h
          case _ rs hrs =>
            split at h
            case isTrue => exact absurd h (by simp)
            case isFalse hlen =>
              split at h
              case _ u hcheck =>
                cases h
                cases u
                have hrecs : recsOf j = rs := by
                  simp [recsOf, hd, hrs]
                refine ⟨rfl, hrt, ?_, ?_⟩
                · rw [hrecs]; exact not_ne_iff.mp hlen
                · rw [hrecs]
                  intro r hr
                  exact checkRec_ok_props r (checkRecs_ok_each rs hcheck r hr)
              case _ e hcheck => exact absurd h (by simp)
          case _ hrs => exact absurd h (by simp)
      case _ => exact absurd h (by simp)
  case _ hrt => exact absurd h (by simp)

/-- C10 counterexample: a response whose third recommendation has the
number 1 as its reasoning is accepted and returned by the validator, yet
that reasoning is not a string — so a successfully returned value need not
carry a non-empty reasoning *string*. -/
theorem claim_C10_counterexample :
    validateGeminiResponse nonStringReasoningResponse = .ok nonStringReasoningResponse ∧
    isStrOpt (getField ((recsOf nonStringReasoningResponse).getD 2 .nullv) "reasoning") = false :=
  ⟨rfl, rfl⟩

/-- C10 witness: the amended theorem applied to a concrete well-formed
accepted response. -/
theorem claim_C10_amended_witness : (recsOf wellFormedResponse).length = 3 :=
  (claim_C10_amended wellFormedResponse wellFormedResponse rfl).2.2.1

end TwoDThreeD
